import Mathlib

set_option autoImplicit false

/-!
Shallow embedding of the evonith_dailylive_datafeed pipeline
(src/pipeline/bf2_rename_map.py, data_cleaner.py, run_tracker.py,
api_client.py, influx_writer.py and src/main.py), together with theorems
settling the frozen claims about the natural-language specification.

Python values flowing through the pipeline are modelled by the inductive
type `PyVal`; machine floats are modelled by exact rationals (the pipeline
only parses and forwards them, it performs no float arithmetic).
-/

namespace Evonith

/-- Model of the dynamically typed Python values that the pipeline passes
around: None, booleans, integers, strings, lists and string-keyed-or-not
dicts.  Float literals, bytes and other object kinds never reach the code
paths under verification and are left out of the model. -/
inductive PyVal where
  | none
  | bool (b : Bool)
  | int (n : Int)
  | str (s : String)
  | list (xs : List PyVal)
  | dict (entries : List (PyVal × PyVal))
  deriving Repr

/-- Python test `v == '' or v is None` from the empty-value branch of
`build_points`.  (For the values reaching that branch, Python equality
with the empty string holds exactly for the empty string itself.) -/
def isEmptyStrOrNone : PyVal → Bool
  | PyVal.str s => s = ""
  | PyVal.none => true
  | _ => false

/-- The exceptions raised by the modelled code paths.  `exception` stands
for the generic `Exception` wrapper raised by `clean_and_parse_data`. -/
inductive PyErr where
  | exception
  | typeError
  | valueError
  | attributeError
  | interfaceError
  | operationalError
  | fileNotFoundError
  deriving DecidableEq, Repr

/-- Boolean test for `Except` success, used to state that a modelled call
returns normally rather than raising. -/
def exceptIsOk {e a : Type} : Except e a → Bool
  | Except.ok _ => true
  | Except.error _ => false

/-! ## Numeric coercion: model of Python `float(v)`

`build_points` coerces raw values with `float(v)` inside try/except.
`pyFloatOfString` models `float` applied to a string: strip whitespace,
then an optional sign, digits with an optional fractional part and an
optional exponent.  (The special forms `inf`/`nan` and underscore digit
separators accepted by CPython are outside the modelled subset; no claim
depends on them.)  Failure (`None` here) models the `ValueError`.

The pipeline never computes with the coerced values, it only stores
them, so a float is modelled exactly as the decimal value
`mant * 10 ^ exp10` in canonical form (trailing zeros stripped from the
mantissa, zero represented as (0, 0)); two parsed values are equal "as
floats" exactly when their canonical forms coincide. -/

/-- Canonical decimal value `mant * 10 ^ exp10`; see the section
comment. -/
structure PyFloat where
  mant : Int
  exp10 : Int
  deriving DecidableEq, Repr

/-- Strip factors of 10 from the mantissa into the exponent; `fuel`
bounds the loop and is chosen ≥ the number of decimal digits. -/
def canonFloatAux : Nat → Int → Int → PyFloat
  | 0, m, e => ⟨m, e⟩
  | fuel + 1, m, e =>
    if m = 0 then ⟨0, 0⟩
    else if m % 10 = 0 then canonFloatAux fuel (m / 10) (e + 1)
    else ⟨m, e⟩

/-- Canonical form of the decimal value `m * 10 ^ e`. -/
def mkFloat (m e : Int) : PyFloat :=
  canonFloatAux (m.natAbs + 1) m e

/-- ASCII whitespace as recognised by Python `str.strip()` / `float()`
(space, tab, newline, carriage return, vertical tab, form feed). -/
def isPySpace (c : Char) : Bool :=
  c = ' ' ∨ c = Char.ofNat 9 ∨ c = Char.ofNat 10 ∨ c = Char.ofNat 13 ∨
    c = Char.ofNat 11 ∨ c = Char.ofNat 12

/-- Model of Python `str.strip()` on a character list: drop whitespace
from both ends. -/
def pyStrip (s : List Char) : List Char :=
  ((s.dropWhile isPySpace).reverse.dropWhile isPySpace).reverse

/-- Numeric value of a digit run, most significant first. -/
def digitsVal (ds : List Char) : Nat :=
  ds.foldl (fun a c => a * 10 + (c.toNat - Char.toNat (Char.ofNat 48))) 0

/-- Parse the optional exponent suffix of a Python float literal; returns
the exponent value, and `none` when characters are left over after it (a
parse failure, `ValueError`). -/
def parseFloatExp : List Char → Option Int
  | [] => some 0
  | c :: r =>
    if c = Char.ofNat 101 ∨ c = Char.ofNat 69 then
      -- c is one of e, E
      let signAndRest : Int × List Char :=
        match r with
        | '+' :: rr => (1, rr)
        | '-' :: rr => (-1, rr)
        | _ => (1, r)
      let ds := signAndRest.2.takeWhile Char.isDigit
      let r3 := signAndRest.2.dropWhile Char.isDigit
      if ds.isEmpty ∨ ¬ r3.isEmpty then Option.none
      else some (signAndRest.1 * (digitsVal ds : Int))
    else Option.none

/-- Model of Python `float(s)` on a string `s` (modelled subset, see
above).  Returns `none` where CPython raises `ValueError`. -/
def pyFloatOfString (s : String) : Option PyFloat :=
  let t := pyStrip s.toList
  let signAndRest : Int × List Char :=
    match t with
    | '+' :: r => (1, r)
    | '-' :: r => (-1, r)
    | _ => (1, t)
  let sign := signAndRest.1
  let t1 := signAndRest.2
  let ip := t1.takeWhile Char.isDigit
  let r1 := t1.dropWhile Char.isDigit
  match r1 with
  | '.' :: r2 =>
    let fp := r2.takeWhile Char.isDigit
    let r3 := r2.dropWhile Char.isDigit
    if ip.isEmpty ∧ fp.isEmpty then Option.none
    else
      match parseFloatExp r3 with
      | some ex =>
        some (mkFloat (sign * (digitsVal (ip ++ fp) : Int)) (ex - (fp.length : Int)))
      | Option.none => Option.none
  | _ =>
    if ip.isEmpty then Option.none
    else
      match parseFloatExp r1 with
      | some ex => some (mkFloat (sign * (digitsVal ip : Int)) ex)
      | Option.none => Option.none

/-- Model of Python `float(v)` on an arbitrary value: numbers and numeric
strings succeed, `None`, lists and dicts raise `TypeError` (modelled as
`none`), non-numeric strings raise `ValueError` (also `none`); the two
exception kinds are indistinguishable to `build_points`, which catches
both. -/
def pyFloat : PyVal → Option PyFloat
  | PyVal.int n => some (mkFloat n 0)
  | PyVal.bool b => some (mkFloat (if b then 1 else 0) 0)
  | PyVal.str s => pyFloatOfString s
  | _ => Option.none

/-- Model of Python `str(v)` for the scalar values that reach the
forced-string branch of `build_points`.  The `repr`-style rendering of
containers is not modelled (record values handed to `build_points` are
scalars); containers map to a fixed placeholder string. -/
def pyStr : PyVal → String
  | PyVal.str s => s
  | PyVal.int n => toString n
  | PyVal.bool b => if b then "True" else "False"
  | PyVal.none => "None"
  | PyVal.list _ => "<list>"
  | PyVal.dict _ => "<dict>"

/-! ## Field classifier (src/pipeline/bf2_rename_map.py)

The five mapping tables are loaded from `config/field_mappings.yaml`,
which is deployment data, not source code; the embedding therefore takes
them as parameters (association lists from raw variable name to field
identity, first binding wins, like a Python dict lookup). -/

/-- The five name-mapping tables of bf2_rename_map.py, in the priority
order in which `get_measurement_and_field` consults them. -/
structure Maps where
  processParams : List (String × String)
  heatload : List (String × String)
  miscellaneous : List (String × String)
  coolingWater : List (String × String)
  deltaT : List (String × String)

/-- Python dict lookup `MAP[k]` guarded by `k in MAP`. -/
def mapGet (m : List (String × String)) (k : String) : Option String :=
  (m.find? (fun p => p.1 = k)).map Prod.snd

/-- Match a literal pattern (given lowercase) case-insensitively against
the head of `s`, returning the remainder on success.  Models the literal
parts of TEMP_REGEX under the re.I flag. -/
def matchLitCI : List Char → List Char → Option (List Char)
  | [], s => some s
  | _ :: _, [] => Option.none
  | p :: ps, c :: cs => if c.toLower = p then matchLitCI ps cs else Option.none

/-- Model of `parse_furnace_temp`: full-match of the stripped key against
TEMP_REGEX = `BF2_BFBD Furnace Body (\d+)mm Temp ([A-N])` (re.I), giving
the level digits and the lowercased thermocouple letter.  The greedy
digit run followed by the literal `mm` is equivalent to taking the
maximal digit run. -/
def parse_furnace_temp (raw_key : String) : Option (String × String) :=
  let s := pyStrip raw_key.toList
  match matchLitCI "bf2_bfbd furnace body ".toList s with
  | Option.none => Option.none
  | some rest =>
    let ds := rest.takeWhile Char.isDigit
    let rest2 := rest.dropWhile Char.isDigit
    if ds.isEmpty then Option.none
    else
      match matchLitCI "mm temp ".toList rest2 with
      | Option.none => Option.none
      | some rest3 =>
        match rest3 with
        | [c] =>
          if Char.ofNat 97 ≤ c.toLower ∧ c.toLower ≤ Char.ofNat 110 then
            -- thermocouple letter in A-N (case-insensitive), lowercased
            some (String.mk ds, String.mk [c.toLower])
          else Option.none
        | _ => Option.none

/-- The classified field identity: either a plain field name from one of
the mapping tables, or the (level, thermocouple) pair produced by
`parse_furnace_temp` for the temperature profile. -/
inductive FieldInfo where
  | plain (f : String)
  | temp (level tc : String)
  deriving DecidableEq, Repr

/-- Model of `get_measurement_and_field`: the temperature regex is tried
first (the source checks `TEMP_REGEX.fullmatch` and then calls
`parse_furnace_temp`, which repeats the same full match, so the two
collapse into one match here), then the five tables in declaration
order; `(None, None)` is modelled by `none`. -/
def get_measurement_and_field (M : Maps) (raw_key : String) : Option (String × FieldInfo) :=
  match parse_furnace_temp raw_key with
  | some lt => some ("temperature_profile", FieldInfo.temp lt.1 lt.2)
  | Option.none =>
    match mapGet M.processParams raw_key with
    | some f => some ("process_params", FieldInfo.plain f)
    | Option.none =>
      match mapGet M.heatload raw_key with
      | some f => some ("heatload_delta_t", FieldInfo.plain f)
      | Option.none =>
        match mapGet M.miscellaneous raw_key with
        | some f => some ("miscellaneous", FieldInfo.plain f)
        | Option.none =>
          match mapGet M.coolingWater raw_key with
          | some f => some ("cooling_water", FieldInfo.plain f)
          | Option.none =>
            match mapGet M.deltaT raw_key with
            | some f => some ("delta_t", FieldInfo.plain f)
            | Option.none => Option.none

/-! ## Point builder (src/pipeline/bf2_rename_map.py, build_points) -/

/-- A field value as stored on an InfluxDB point by `build_points`:
`pt.field(name, float(v))`, `pt.field(name, str(v))` or
`pt.field(name, None)`. -/
inductive FieldVal where
  | float (q : PyFloat)
  | str (s : String)
  | none
  deriving DecidableEq, Repr

/-- Model of an `influxdb_client_3.Point` as constructed by
`build_points`: measurement name, tag pairs, field pairs and the
timestamp passed to `.time(ts)` (carried opaquely, type `T`). -/
structure Point (T : Type) where
  measurement : String
  tags : List (String × String)
  fields : List (String × FieldVal)
  time : T
  deriving DecidableEq, Repr

/-- The forced-string field allow-list STRING_FIELDS of
bf2_rename_map.py (a literal in the source). -/
def STRING_FIELDS : List String := ["hot_blast_temp_spare"]

/-- Model of `build_points` (the version in src/pipeline/
bf2_rename_map.py): iterate the record in insertion order; unknown names
are skipped; a temperature-profile match emits one tagged point per
variable when `float(v)` succeeds; a field in STRING_FIELDS emits one
point with `str(v)`; otherwise `float(v)` emits one float point, and on
coercion failure an empty-string or `None` value still emits one point
whose field value is `None`, while any other unparsable value is
skipped.  Note: each appended point carries exactly one field. -/
def build_points {T : Type} (M : Maps) (api_dict : List (String × PyVal)) (ts : T) :
    List (Point T) :=
  api_dict.foldl
    (fun points kv =>
      match get_measurement_and_field M kv.1 with
      | Option.none => points
      | some mf =>
        match mf.2 with
        | FieldInfo.temp level tc =>
          -- measurement = temperature_profile exactly on this branch
          match pyFloat kv.2 with
          | some q =>
            points ++ [⟨mf.1, [("level_mm", level), ("thermocouple", tc)],
                        [("temp_c", FieldVal.float q)], ts⟩]
          | Option.none => points
        | FieldInfo.plain field_info =>
          if field_info ∈ STRING_FIELDS then
            points ++ [⟨mf.1, [], [(field_info, FieldVal.str (pyStr kv.2))], ts⟩]
          else
            match pyFloat kv.2 with
            | some q => points ++ [⟨mf.1, [], [(field_info, FieldVal.float q)], ts⟩]
            | Option.none =>
              if isEmptyStrOrNone kv.2 then
                points ++ [⟨mf.1, [], [(field_info, FieldVal.none)], ts⟩]
              else points)
    []

/-! ## Claims C1-C3: the point builder in src/pipeline/bf2_rename_map.py

The repository's own test suite (test/test_bf2_rename_map.py) asserts
that `build_points` returns a string and that the module exposes
`get_numeric` and `TEMP_PARAMS_MAP`; the module under src has neither and
returns a list of one-field points, so the checked-in module is a stale
version contradicted by its own tests.  The theorems below evaluate the
checked-in code at the claims' scenarios and exhibit the divergences. -/

/-- Concrete mapping-table instantiation used by the C1 evaluation: two
raw names mapped to two fields of the process_params measurement. -/
def mapsC1 : Maps := ⟨[("Raw A", "field_a"), ("Raw B", "field_b")], [], [], [], []⟩

/-- C1: claimed — `build_points` accumulates coerced (field, value) pairs
keyed by measurement and emits exactly one point per measurement present
in the record, carrying all of that measurement's fields.  Actual — for a
record with two fields that both classify into process_params, the
checked-in `build_points` emits two points for that one measurement, each
carrying a single field; no accumulation happens. -/
theorem c1_build_points_one_point_per_field :
    build_points mapsC1 [("Raw A", PyVal.int 1), ("Raw B", PyVal.int 2)] (0 : Int) =
      [⟨"process_params", [], [("field_a", FieldVal.float ⟨1, 0⟩)], 0⟩,
       ⟨"process_params", [], [("field_b", FieldVal.float ⟨2, 0⟩)], 0⟩] ∧
    (build_points mapsC1 [("Raw A", PyVal.int 1), ("Raw B", PyVal.int 2)] (0 : Int)).length = 2 := by
  exact ⟨rfl, rfl⟩

/-- Concrete mapping-table instantiation used by the C2 evaluation. -/
def mapsC2 : Maps := ⟨[("Raw A", "field_a")], [], [], [], []⟩

/-- C2: claimed — a classified field whose raw value is the empty string
is absent from the emitted output, and a record whose classified fields
all fail coercion yields zero points.  Actual — the checked-in
`build_points` emits a point whose field value is `None` for an
empty-string (or `None`) raw value, so the field is present in the output
and the point count is one, not zero.  (Non-empty unparsable strings such
as "abc" are indeed skipped.) -/
theorem c2_build_points_emits_null_field_point :
    build_points mapsC2 [("Raw A", PyVal.str "")] (0 : Int) =
      [⟨"process_params", [], [("field_a", FieldVal.none)], 0⟩] ∧
    build_points mapsC2 [("Raw A", PyVal.none)] (0 : Int) =
      [⟨"process_params", [], [("field_a", FieldVal.none)], 0⟩] ∧
    build_points mapsC2 [("Raw A", PyVal.str "abc")] (0 : Int) = [] := by
  exact ⟨rfl, rfl, rfl⟩

/-- Concrete mapping-table instantiation used by the C3 evaluation: a raw
name mapped to the forced-string field hot_blast_temp_spare. -/
def mapsC3 : Maps := ⟨[("HB Temp Spare", "hot_blast_temp_spare")], [], [], [], []⟩

/-- C3: claimed — a field in the forced-string allow-list STRING_FIELDS
skips coercion and no point is ever emitted for it.  Actual — the
checked-in `build_points` does skip the numeric path for such a field but
emits a point carrying `str(v)` for it, so forced-string fields do appear
in the output. -/
theorem c3_build_points_emits_string_field_point :
    build_points mapsC3 [("HB Temp Spare", PyVal.str "SPARE")] (0 : Int) =
      [⟨"process_params", [], [("hot_blast_temp_spare", FieldVal.str "SPARE")], 0⟩] := by
  exact rfl

/-! ## Claim C4: classifier priority order and round-trip -/

/-- C4: `get_measurement_and_field` consults the tables in the fixed
priority order temperature_profile, process_params, heatload_delta_t,
miscellaneous, cooling_water, delta_t and returns the first match, so a
key of a table that is absent from all higher-priority tables classifies
to exactly that table's measurement and mapped field; a name in no table
yields `(None, None)` (and the function is total, so it never raises). -/
theorem c4_classifier_priority_roundtrip (M : Maps) (k : String) :
    (∀ level tc, parse_furnace_temp k = some (level, tc) →
      get_measurement_and_field M k = some ("temperature_profile", FieldInfo.temp level tc)) ∧
    (parse_furnace_temp k = Option.none →
      ((∀ f, mapGet M.processParams k = some f →
          get_measurement_and_field M k = some ("process_params", FieldInfo.plain f)) ∧
       (mapGet M.processParams k = Option.none →
        ((∀ f, mapGet M.heatload k = some f →
            get_measurement_and_field M k = some ("heatload_delta_t", FieldInfo.plain f)) ∧
         (mapGet M.heatload k = Option.none →
          ((∀ f, mapGet M.miscellaneous k = some f →
              get_measurement_and_field M k = some ("miscellaneous", FieldInfo.plain f)) ∧
           (mapGet M.miscellaneous k = Option.none →
            ((∀ f, mapGet M.coolingWater k = some f →
                get_measurement_and_field M k = some ("cooling_water", FieldInfo.plain f)) ∧
             (mapGet M.coolingWater k = Option.none →
              ((∀ f, mapGet M.deltaT k = some f →
                  get_measurement_and_field M k = some ("delta_t", FieldInfo.plain f)) ∧
               (mapGet M.deltaT k = Option.none →
                  get_measurement_and_field M k = Option.none))))))))))) := by
  refine ⟨?_, ?_⟩
  · intro level tc h
    simp [get_measurement_and_field, h]
  · intro h0
    refine ⟨?_, ?_⟩
    · intro f h1
      simp [get_measurement_and_field, h0, h1]
    · intro h1
      refine ⟨?_, ?_⟩
      · intro f h2
        simp [get_measurement_and_field, h0, h1, h2]
      · intro h2
        refine ⟨?_, ?_⟩
        · intro f h3
          simp [get_measurement_and_field, h0, h1, h2, h3]
        · intro h3
          refine ⟨?_, ?_⟩
          · intro f h4
            simp [get_measurement_and_field, h0, h1, h2, h3, h4]
          · intro h4
            refine ⟨?_, ?_⟩
            · intro f h5
              simp [get_measurement_and_field, h0, h1, h2, h3, h4, h5]
            · intro h5
              simp [get_measurement_and_field, h0, h1, h2, h3, h4, h5]

/-- Mapping tables used by the C4 witness: one key in each table. -/
def mapsC4 : Maps :=
  ⟨[("pp_key", "pp_field")], [("hl_key", "hl_field")], [("mi_key", "mi_field")],
   [("cw_key", "cw_field")], [("dt_key", "dt_field")]⟩

/-- Witness for C4: instantiates the classifier theorem on concrete
tables, one key per table, plus a temperature variable and an unknown
name. -/
theorem c4_classifier_priority_roundtrip_witness :
    get_measurement_and_field mapsC4 "BF2_BFBD Furnace Body 800mm Temp A" =
      some ("temperature_profile", FieldInfo.temp "800" "a") ∧
    get_measurement_and_field mapsC4 "pp_key" = some ("process_params", FieldInfo.plain "pp_field") ∧
    get_measurement_and_field mapsC4 "hl_key" = some ("heatload_delta_t", FieldInfo.plain "hl_field") ∧
    get_measurement_and_field mapsC4 "mi_key" = some ("miscellaneous", FieldInfo.plain "mi_field") ∧
    get_measurement_and_field mapsC4 "cw_key" = some ("cooling_water", FieldInfo.plain "cw_field") ∧
    get_measurement_and_field mapsC4 "dt_key" = some ("delta_t", FieldInfo.plain "dt_field") ∧
    get_measurement_and_field mapsC4 "not_a_real_variable" = Option.none := by
  refine ⟨?_, ?_, ?_, ?_, ?_, ?_, ?_⟩
  · exact (c4_classifier_priority_roundtrip mapsC4 "BF2_BFBD Furnace Body 800mm Temp A").1
      "800" "a" (by rfl)
  · exact ((c4_classifier_priority_roundtrip mapsC4 "pp_key").2 (by rfl)).1 "pp_field" (by rfl)
  · exact (((c4_classifier_priority_roundtrip mapsC4 "hl_key").2 (by rfl)).2 (by rfl)).1
      "hl_field" (by rfl)
  · exact ((((c4_classifier_priority_roundtrip mapsC4 "mi_key").2 (by rfl)).2 (by rfl)).2
      (by rfl)).1 "mi_field" (by rfl)
  · exact (((((c4_classifier_priority_roundtrip mapsC4 "cw_key").2 (by rfl)).2 (by rfl)).2
      (by rfl)).2 (by rfl)).1 "cw_field" (by rfl)
  · exact ((((((c4_classifier_priority_roundtrip mapsC4 "dt_key").2 (by rfl)).2 (by rfl)).2
      (by rfl)).2 (by rfl)).2 (by rfl)).1 "dt_field" (by rfl)
  · exact ((((((c4_classifier_priority_roundtrip mapsC4 "not_a_real_variable").2 (by rfl)).2
      (by rfl)).2 (by rfl)).2 (by rfl)).2 (by rfl)).2 (by rfl)

/-! ## Payload decoder (src/pipeline/data_cleaner.py)

`clean_and_parse_data` removes `<script.*?</script>` spans (re.DOTALL,
lazy, case-sensitive), strips the result, and runs `ast.literal_eval` on
it; a parse failure is re-raised as a generic Exception, and the
success-path log line evaluates `len(records)`, which raises `TypeError`
for sizeless values.  `ast.literal_eval` is modelled by an executable
parser for the literal subset the payloads use: None, booleans,
integers, quoted strings with common escapes, lists and dicts (float
literals and exotic escapes are outside the modelled subset). -/

/-- Case-sensitive test that `pat` is a leading part of `s`. -/
def startsList : List Char → List Char → Bool
  | [], _ => true
  | _ :: _, [] => false
  | p :: ps, c :: cs => p = c && startsList ps cs

/-- Scan for the first occurrence of `</script>` and return the suffix
after it. -/
def dropAfterClose : Nat → List Char → Option (List Char)
  | 0, _ => Option.none
  | _ + 1, [] => Option.none
  | fuel + 1, c :: rest =>
    if startsList "</script>".toList (c :: rest) then some ((c :: rest).drop 9)
    else dropAfterClose fuel rest

/-- One pass of `re.sub(r"<script.*?</script>", "", raw, flags=re.DOTALL)`:
at each position, a leading `<script` followed (lazily) by a later
`</script>` deletes the span through the nearest close; with no close
anywhere later, no further match can start, so the rest is kept. -/
def stripScriptsAux : Nat → List Char → List Char
  | 0, s => s
  | fuel + 1, s =>
    match s with
    | [] => []
    | c :: rest =>
      if startsList "<script".toList (c :: rest) then
        match dropAfterClose (c :: rest).length ((c :: rest).drop 7) with
        | some suffix => stripScriptsAux fuel suffix
        | Option.none => c :: rest
      else c :: stripScriptsAux fuel rest

/-- Model of the script-stripping regex substitution. -/
def stripScripts (s : List Char) : List Char :=
  stripScriptsAux (s.length + 1) s

/-- The single-quote character. -/
def quoteS : Char := Char.ofNat 39

/-- The double-quote character. -/
def quoteD : Char := Char.ofNat 34

/-- The backslash character. -/
def backslashC : Char := Char.ofNat 92

/-- Translation of one string-literal escape `\e`: the common escapes are
mapped, an unrecognised escape keeps the backslash (as in Python). -/
def escChar (e : Char) : List Char :=
  if e = Char.ofNat 110 then [Char.ofNat 10]
  else if e = Char.ofNat 116 then [Char.ofNat 9]
  else if e = Char.ofNat 114 then [Char.ofNat 13]
  else if e = backslashC then [backslashC]
  else if e = quoteS ∨ e = quoteD then [e]
  else [backslashC, e]

/-- Parse the body of a quoted string literal up to the closing quote
`q`, handling escapes; returns the decoded characters and the rest. -/
def parseStrBody (q : Char) : Nat → List Char → Option (List Char × List Char)
  | 0, _ => Option.none
  | _ + 1, [] => Option.none
  | fuel + 1, c :: rest =>
    if c = q then some ([], rest)
    else if c = backslashC then
      match rest with
      | [] => Option.none
      | e :: rest2 =>
        match parseStrBody q fuel rest2 with
        | some (acc, rem) => some (escChar e ++ acc, rem)
        | Option.none => Option.none
    else
      match parseStrBody q fuel rest with
      | some (acc, rem) => some (c :: acc, rem)
      | Option.none => Option.none

/-- Skip literal-level whitespace. -/
def skipWs (s : List Char) : List Char := s.dropWhile isPySpace

/-- Parse an optionally signed integer literal. -/
def parseIntLit (s : List Char) : Option (Int × List Char) :=
  let signAndRest : Int × List Char :=
    match s with
    | '-' :: r => (-1, r)
    | '+' :: r => (1, r)
    | _ => (1, s)
  let ds := signAndRest.2.takeWhile Char.isDigit
  let r := signAndRest.2.dropWhile Char.isDigit
  if ds.isEmpty then Option.none
  else some (signAndRest.1 * (digitsVal ds : Int), r)

/-- One fuel level of the literal parser: the triple of parsers for (a
value, a list remainder after the opening bracket, a dict remainder
after the opening brace).  Packing the mutually recursive parsers into
one structurally recursive function keeps them kernel-reducible. -/
def parseStep : Nat →
    ((List Char → Option (PyVal × List Char)) ×
     (List Char → Option (List PyVal × List Char)) ×
     (List Char → Option (List (PyVal × PyVal) × List Char)))
  | 0 => (fun _ => Option.none, fun _ => Option.none, fun _ => Option.none)
  | fuel + 1 =>
    let pv := (parseStep fuel).1
    let pl := (parseStep fuel).2.1
    let pd := (parseStep fuel).2.2
    (fun s =>
      let s1 := skipWs s
      match s1 with
      | [] => Option.none
      | c :: rest =>
        if c = '[' then
          match pl rest with
          | some (xs, r) => some (PyVal.list xs, r)
          | Option.none => Option.none
        else if c = Char.ofNat 123 then
          -- opening brace: dict literal
          match pd rest with
          | some (es, r) => some (PyVal.dict es, r)
          | Option.none => Option.none
        else if c = quoteS ∨ c = quoteD then
          match parseStrBody c (rest.length + 1) rest with
          | some (cs, r) => some (PyVal.str (String.mk cs), r)
          | Option.none => Option.none
        else if c = '-' ∨ c = '+' ∨ c.isDigit then
          match parseIntLit s1 with
          | some (n, r) => some (PyVal.int n, r)
          | Option.none => Option.none
        else if startsList "None".toList s1 then some (PyVal.none, s1.drop 4)
        else if startsList "True".toList s1 then some (PyVal.bool true, s1.drop 4)
        else if startsList "False".toList s1 then some (PyVal.bool false, s1.drop 5)
        else Option.none,
     fun s =>
      let s1 := skipWs s
      match s1 with
      | ']' :: r => some ([], r)
      | _ =>
        match pv s1 with
        | Option.none => Option.none
        | some (x, r) =>
          match skipWs r with
          | ']' :: r2 => some ([x], r2)
          | ',' :: r2 =>
            -- a trailing comma before the bracket is accepted, as in Python
            match pl r2 with
            | some (xs, r3) => some (x :: xs, r3)
            | Option.none => Option.none
          | _ => Option.none,
     fun s =>
      let s1 := skipWs s
      match s1 with
      | c :: r =>
        if c = Char.ofNat 125 then some ([], r)
        else
          match pv s1 with
          | Option.none => Option.none
          | some (k, r1) =>
            match skipWs r1 with
            | ':' :: r2 =>
              match pv r2 with
              | Option.none => Option.none
              | some (v, r3) =>
                match skipWs r3 with
                | c2 :: r4 =>
                  if c2 = Char.ofNat 125 then some ([(k, v)], r4)
                  else if c2 = ',' then
                    match pd r4 with
                    | some (es, r5) => some ((k, v) :: es, r5)
                    | Option.none => Option.none
                  else Option.none
                | [] => Option.none
            | _ => Option.none
      | [] => Option.none)

/-- Model of `ast.literal_eval` on the modelled literal subset: the whole
(whitespace-trimmed) string must be one literal. -/
def pyLiteralEval (s : String) : Option PyVal :=
  let cs := s.toList
  match (parseStep (2 * cs.length + 4)).1 cs with
  | some (v, rest) => if (skipWs rest).isEmpty then some v else Option.none
  | Option.none => Option.none

/-- The cleaned payload handed to `ast.literal_eval`: script spans
removed, then stripped. -/
def cleanedOf (raw : String) : String :=
  String.mk (pyStrip (stripScripts raw.toList))

/-- Model of Python `len(v)`: defined for strings, lists and dicts,
`TypeError` (none) otherwise. -/
def pyLen : PyVal → Option Nat
  | PyVal.str s => some s.length
  | PyVal.list xs => some xs.length
  | PyVal.dict es => some es.length
  | _ => Option.none

/-- Model of `clean_and_parse_data`: clean, literal-parse (failure is
wrapped in a generic Exception and re-raised), then the success-path log
line evaluates `len(records)`, raising `TypeError` on sizeless values;
otherwise the fully parsed value is returned. -/
def clean_and_parse_data (raw : String) : Except PyErr PyVal :=
  match pyLiteralEval (cleanedOf raw) with
  | Option.none => Except.error PyErr.exception
  | some v =>
    match pyLen v with
    | Option.none => Except.error PyErr.typeError
    | some _ => Except.ok v

/-- The spec's well-formedness notion for a decoded payload (stated from
the spec's words, for comparison with the code): a list whose elements
are all mappings. -/
def isListOfDicts : PyVal → Bool
  | PyVal.list xs =>
    xs.all (fun v =>
      match v with
      | PyVal.dict _ => true
      | _ => false)
  | _ => false

/-! ## Claim C5: decoder all-or-nothing behaviour -/

/-- Counterexample to C5 as stated: the payload "[1, 2]" is a well-formed
literal but not a list of mappings, yet `clean_and_parse_data` returns it
successfully instead of raising. -/
theorem c5_decode_accepts_non_mapping_list :
    clean_and_parse_data "[1, 2]" = Except.ok (PyVal.list [PyVal.int 1, PyVal.int 2]) ∧
    isListOfDicts (PyVal.list [PyVal.int 1, PyVal.int 2]) = false := by
  exact ⟨rfl, rfl⟩

/-- C5 as amended: the decoder raises whenever the cleaned payload fails
to parse as a literal (and, separately, when the parsed value has no
length); on success it returns exactly the fully parsed literal — never a
partial or empty substitute — but it does not require the literal to be a
list of mappings. -/
theorem c5_decode_all_or_nothing (raw : String) :
    (pyLiteralEval (cleanedOf raw) = Option.none →
      clean_and_parse_data raw = Except.error PyErr.exception) ∧
    (∀ v, clean_and_parse_data raw = Except.ok v →
      pyLiteralEval (cleanedOf raw) = some v ∧ pyLen v ≠ Option.none) := by
  constructor
  · intro h
    simp [clean_and_parse_data, h]
  · intro v h
    unfold clean_and_parse_data at h
    cases heq : pyLiteralEval (cleanedOf raw) with
    | none => simp [heq] at h
    | some w =>
      rw [heq] at h
      simp only [] at h
      cases hlen : pyLen w with
      | none => simp [hlen] at h
      | some n =>
        simp [hlen] at h
        subst h
        exact ⟨rfl, by simp [hlen]⟩

/-- Witness for the amended C5: the malformed payload "not a list" fails
the literal parse and the decoder raises. -/
theorem c5_decode_all_or_nothing_witness :
    clean_and_parse_data "not a list" = Except.error PyErr.exception :=
  (c5_decode_all_or_nothing "not a list").1 (by rfl)

/-! ## Run ledger (src/pipeline/run_tracker.py)

The ledger is a SQLite table `runs` with
`UNIQUE(date_run, range, mode) ON CONFLICT REPLACE` and an
`INSERT ... ON CONFLICT(date_run, range, mode) DO UPDATE SET ...` upsert.
The embedding models the world of database files as a map from path to
an optional `runs` table (`none`: the file has no such table yet, which
is also the state `sqlite3.connect` leaves a fresh file in, so that a
statement on it fails with OperationalError).  Binding a Python value to
a SQL parameter adapts booleans to integers and rejects containers with
InterfaceError, as the sqlite3 module does. -/

/-- One row of the `runs` table (the AUTOINCREMENT id, which no code
reads, is omitted). -/
structure RunRow where
  run_time : PyVal
  date_run : PyVal
  range : PyVal
  mode : PyVal
  parameters : PyVal
  process_id : PyVal
  success : PyVal
  num_records : PyVal
  log_path : PyVal
  points_file_path : PyVal
  deriving Repr

/-- The `runs` table contents, in insertion order. -/
def Table := List RunRow

/-- All database files visible to the pipeline, keyed by path; `none`
means no `runs` table exists at that path. -/
def Store := String → Option Table

/-- The natural key (date_run, range, mode) of a row. -/
def rowKey (r : RunRow) : PyVal × PyVal × PyVal := (r.date_run, r.range, r.mode)

/-- SQLite value equality on stored (bound) column values; bound values
are always scalars, and two stored scalars are equal exactly when they
are the same value. -/
def pyScalarEq : PyVal → PyVal → Bool
  | PyVal.none, PyVal.none => true
  | PyVal.bool a, PyVal.bool b => a = b
  | PyVal.int a, PyVal.int b => a = b
  | PyVal.str a, PyVal.str b => a = b
  | _, _ => false

/-- Natural-key equality as the UNIQUE constraint compares it. -/
def keyEq (a b : PyVal × PyVal × PyVal) : Bool :=
  pyScalarEq a.1 b.1 && pyScalarEq a.2.1 b.2.1 && pyScalarEq a.2.2 b.2.2

/-- The rows of `t` whose natural key is `K`. -/
def filterKey (t : Table) (K : PyVal × PyVal × PyVal) : Table :=
  t.filter (fun r => keyEq (rowKey r) K)

/-- How many rows of `t` carry natural key `K`. -/
def countKey (t : Table) (K : PyVal × PyVal × PyVal) : Nat :=
  (filterKey t K).length

/-- The DO UPDATE SET clause: key columns stay, the seven non-key
columns are taken from the excluded (new) row. -/
def updateRow (old new : RunRow) : RunRow :=
  ⟨new.run_time, old.date_run, old.range, old.mode, new.parameters,
   new.process_id, new.success, new.num_records, new.log_path, new.points_file_path⟩

/-- The upsert: replace the (unique) conflicting row in place, or append
the new row.  Under the UNIQUE constraint at most one row can conflict. -/
def upsertRow (row : RunRow) : Table → Table
  | [] => [row]
  | r :: rest =>
    if keyEq (rowKey r) (rowKey row) then updateRow r row :: rest
    else r :: upsertRow row rest

/-- Replace the table at one path of the store. -/
def storeUpdate (store : Store) (p : String) (t : Table) : Store :=
  fun q => if q = p then some t else store q

/-- Model of `init_db`: CREATE TABLE IF NOT EXISTS — an absent `runs`
table becomes empty, an existing one is untouched. -/
def init_db (db_path : String) (store : Store) : Store :=
  fun q => if q = db_path then some ((store db_path).getD []) else store q

/-- sqlite3 parameter binding: scalars bind (booleans adapt to
integers), lists and dicts raise InterfaceError (`none`). -/
def bindPyVal : PyVal → Option PyVal
  | PyVal.none => some PyVal.none
  | PyVal.bool b => some (PyVal.int (if b then 1 else 0))
  | PyVal.int n => some (PyVal.int n)
  | PyVal.str s => some (PyVal.str s)
  | PyVal.list _ => Option.none
  | PyVal.dict _ => Option.none

/-- Bind all ten column values of a row, failing if any is unbindable. -/
def bindRow (r : RunRow) : Option RunRow :=
  match bindPyVal r.run_time, bindPyVal r.date_run, bindPyVal r.range,
      bindPyVal r.mode, bindPyVal r.parameters, bindPyVal r.process_id,
      bindPyVal r.success, bindPyVal r.num_records, bindPyVal r.log_path,
      bindPyVal r.points_file_path with
  | some a, some b, some c, some d, some e, some f, some g, some h2, some i2, some j2 =>
    some ⟨a, b, c, d, e, f, g, h2, i2, j2⟩
  | _, _, _, _, _, _, _, _, _, _ => Option.none

/-- Concatenate with the JSON item separator. -/
def joinCommaSp : List String → String
  | [] => ""
  | [s] => s
  | s :: rest => s ++ ", " ++ joinCommaSp rest

/-- Model of `json.dumps` on the modelled value subset (string escaping
and non-string keys are outside the subset; the fuel bounds nesting far
beyond anything the pipeline stores). -/
def pyJsonDumpsFuel : Nat → PyVal → String
  | 0, _ => ""
  | fuel + 1, v =>
    match v with
    | PyVal.none => "null"
    | PyVal.bool true => "true"
    | PyVal.bool false => "false"
    | PyVal.int n => toString n
    | PyVal.str s => quoteD.toString ++ s ++ quoteD.toString
    | PyVal.list xs => "[" ++ joinCommaSp (xs.map (pyJsonDumpsFuel fuel)) ++ "]"
    | PyVal.dict es =>
      "\x7b" ++
        joinCommaSp (es.map (fun kv =>
          pyJsonDumpsFuel fuel kv.1 ++ ": " ++ pyJsonDumpsFuel fuel kv.2)) ++ "\x7d"

/-- `json.dumps(parameters)` as `log_run` uses it. -/
def pyJsonDumps (v : PyVal) : String := pyJsonDumpsFuel 1000 v

/-- Model of Python `int(v)` for the success flag: booleans and integers
convert, a (stripped) signed digit string converts, everything else
raises `TypeError`/`ValueError` (`none`). -/
def pyInt : PyVal → Option Int
  | PyVal.bool b => some (if b then 1 else 0)
  | PyVal.int n => some n
  | PyVal.str s =>
    match parseIntLit (pyStrip s.toList) with
    | some (n, rest) => if rest.isEmpty then some n else Option.none
    | Option.none => Option.none
  | _ => Option.none

/-- Model of `log_run`: the eleven parameters in source order (db_path
last, `"db/run_metadata.db"` when the caller omits it).  The db path must
be a string (`os.path.abspath` raises TypeError otherwise); `json.dumps`
serialises the parameters and `int(success)` converts the flag while the
statement arguments are built; executing the INSERT needs the `runs`
table to exist at the path (else OperationalError) and all bound values
to be adaptable (else InterfaceError); finally the ON CONFLICT upsert
runs against the table. -/
def log_run (run_time date_run range_param mode parameters process_id success
    num_records log_path points_file_path db_path : PyVal) (store : Store) :
    Except PyErr Store :=
  match db_path with
  | PyVal.str p =>
    match pyInt success with
    | Option.none => Except.error PyErr.typeError
    | some s =>
      match store p with
      | Option.none => Except.error PyErr.operationalError
      | some t =>
        match bindRow ⟨run_time, date_run, range_param, mode,
            PyVal.str (pyJsonDumps parameters), process_id, PyVal.int s,
            num_records, log_path, points_file_path⟩ with
        | Option.none => Except.error PyErr.interfaceError
        | some row => Except.ok (storeUpdate store p (upsertRow row t))
  | _ => Except.error PyErr.typeError

/-- The db path used by every caller that omits `db_path`. -/
def defaultDbPath : String := "db/run_metadata.db"

/-- Binding None is the identity (stored as NULL). -/
theorem bindPyVal_none : bindPyVal PyVal.none = some PyVal.none := rfl

/-- Binding a string value is the identity. -/
theorem bindPyVal_str (s : String) : bindPyVal (PyVal.str s) = some (PyVal.str s) := rfl

/-- Binding an integer value is the identity. -/
theorem bindPyVal_int (n : Int) : bindPyVal (PyVal.int n) = some (PyVal.int n) := rfl

/-- Stored scalar equality implies value equality (containers never
compare equal, so this holds unconditionally). -/
theorem pyScalarEq_eq {a b : PyVal} (h : pyScalarEq a b = true) : a = b := by
  cases a <;> cases b <;> simp_all [pyScalarEq]

/-- Natural-key equality implies key equality. -/
theorem keyEq_eq {K1 K2 : PyVal × PyVal × PyVal} (h : keyEq K1 K2 = true) : K1 = K2 := by
  obtain ⟨a1, b1, c1⟩ := K1
  obtain ⟨a2, b2, c2⟩ := K2
  simp only [keyEq, Bool.and_eq_true] at h
  obtain ⟨⟨h1, h2⟩, h3⟩ := h
  rw [pyScalarEq_eq h1, pyScalarEq_eq h2, pyScalarEq_eq h3]

/-- A value that binds to itself compares equal to itself under stored
scalar equality. -/
theorem pyScalarEq_self_of_bind {v : PyVal} (h : bindPyVal v = some v) :
    pyScalarEq v v = true := by
  cases v <;> simp_all [bindPyVal, pyScalarEq]

/-- The DO UPDATE SET clause keeps the key columns. -/
theorem rowKey_updateRow (old new : RunRow) : rowKey (updateRow old new) = rowKey old := rfl

/-- Updating a row whose key already equals the new row's key yields the
new row itself. -/
theorem updateRow_eq_self {r0 row : RunRow} (h : rowKey r0 = rowKey row) :
    updateRow r0 row = row := by
  cases r0
  cases row
  simp only [rowKey, Prod.mk.injEq] at h
  obtain ⟨h1, h2, h3⟩ := h
  simp [updateRow, h1, h2, h3]

/-- After upserting `row` into a table holding at most one row with
`row`'s key, exactly the row itself stands for that key. -/
theorem filterKey_upsertRow_self (row : RunRow) (t : Table)
    (hrefl : keyEq (rowKey row) (rowKey row) = true)
    (hcount : countKey t (rowKey row) ≤ 1) :
    filterKey (upsertRow row t) (rowKey row) = [row] := by
  induction t with
  | nil => simp [upsertRow, filterKey, hrefl]
  | cons r rest ih =>
    by_cases hk : keyEq (rowKey r) (rowKey row) = true
    · have hkey : rowKey r = rowKey row := keyEq_eq hk
      have hupd : updateRow r row = row := updateRow_eq_self hkey
      have hc0 : List.filter (fun x => keyEq (rowKey x) (rowKey row)) rest = [] := by
        have hle : (List.filter (fun x => keyEq (rowKey x) (rowKey row)) rest).length + 1 ≤ 1 := by
          simpa [countKey, filterKey, hk] using hcount
        exact List.length_eq_zero.mp (by omega)
      simp [upsertRow, hk, filterKey, hupd, hrefl, hc0]
    · have hkb : keyEq (rowKey r) (rowKey row) = false := by
        simpa using hk
      have hcr : countKey rest (rowKey row) ≤ 1 := by
        simpa [countKey, filterKey, hkb] using hcount
      simp [upsertRow, hkb, filterKey]
      simpa [filterKey] using ih hcr

/-- Upserting a row leaves the rows of every other key untouched. -/
theorem filterKey_upsertRow_other (row : RunRow) (t : Table)
    (K : PyVal × PyVal × PyVal) (hne : keyEq (rowKey row) K = false) :
    filterKey (upsertRow row t) K = filterKey t K := by
  induction t with
  | nil => simp [upsertRow, filterKey, hne]
  | cons r rest ih =>
    by_cases hk : keyEq (rowKey r) (rowKey row) = true
    · have hkey : rowKey r = rowKey row := keyEq_eq hk
      have hrne : keyEq (rowKey r) K = false := by rw [hkey]; exact hne
      have hrneU : keyEq (rowKey (updateRow r row)) K = false := by
        rw [rowKey_updateRow, hkey]; exact hne
      simp [upsertRow, hk, filterKey, hrne, hrneU]
    · have hkb : keyEq (rowKey r) (rowKey row) = false := by simpa using hk
      by_cases hrK : keyEq (rowKey r) K = true
      · simp [upsertRow, hkb, filterKey, hrK]
        exact congrArg (List.cons r) (by simpa [filterKey] using ih)
      · have hrKb : keyEq (rowKey r) K = false := by simpa using hrK
        simp [upsertRow, hkb, filterKey, hrKb]
        simpa [filterKey] using ih

/-! ## Claim C6: ledger upsert is last-write-wins; init_db is idempotent -/

/-- C6: two `log_run` upserts with the same (date_run, range, mode) key
leave exactly one row for that key, whose run_time, parameters,
process_id, success, num_records, log_path and points_file_path are the
second call's; `init_db` is idempotent and leaves an existing table
untouched.  The hypotheses say the table at the path exists with at most
one row for the key (the UNIQUE constraint's invariant), the key and
payload values are bindable scalars, and the success flags convert with
`int()`. -/
theorem c6_ledger_upsert_last_write_wins
    (store : Store) (p : String) (t : Table)
    (dr rg md rt1 pa1 pid1 su1 nr1 lp1 pf1 rt2 pa2 pid2 su2 nr2 lp2 pf2 : PyVal)
    (s1 s2 : Int)
    (hp : store p = some t)
    (hdr : bindPyVal dr = some dr) (hrg : bindPyVal rg = some rg)
    (hmd : bindPyVal md = some md)
    (hrt1 : bindPyVal rt1 = some rt1) (hpid1 : bindPyVal pid1 = some pid1)
    (hnr1 : bindPyVal nr1 = some nr1) (hlp1 : bindPyVal lp1 = some lp1)
    (hpf1 : bindPyVal pf1 = some pf1)
    (hrt2 : bindPyVal rt2 = some rt2) (hpid2 : bindPyVal pid2 = some pid2)
    (hnr2 : bindPyVal nr2 = some nr2) (hlp2 : bindPyVal lp2 = some lp2)
    (hpf2 : bindPyVal pf2 = some pf2)
    (hsu1 : pyInt su1 = some s1) (hsu2 : pyInt su2 = some s2)
    (hcount : countKey t (dr, rg, md) ≤ 1) :
    ∃ store1 store2 : Store,
      log_run rt1 dr rg md pa1 pid1 su1 nr1 lp1 pf1 (PyVal.str p) store =
        Except.ok store1 ∧
      log_run rt2 dr rg md pa2 pid2 su2 nr2 lp2 pf2 (PyVal.str p) store1 =
        Except.ok store2 ∧
      (∃ t2 : Table, store2 p = some t2 ∧
        filterKey t2 (dr, rg, md) =
          [⟨rt2, dr, rg, md, PyVal.str (pyJsonDumps pa2), pid2, PyVal.int s2,
            nr2, lp2, pf2⟩]) ∧
      (∀ (s : Store) (q : String), init_db q (init_db q s) = init_db q s) ∧
      init_db p store = store := by
  have hrefl : keyEq (dr, rg, md) (dr, rg, md) = true := by
    simp [keyEq, pyScalarEq_self_of_bind hdr, pyScalarEq_self_of_bind hrg,
      pyScalarEq_self_of_bind hmd]
  refine ⟨storeUpdate store p (upsertRow
      ⟨rt1, dr, rg, md, PyVal.str (pyJsonDumps pa1), pid1, PyVal.int s1, nr1, lp1, pf1⟩ t),
    storeUpdate
      (storeUpdate store p (upsertRow
        ⟨rt1, dr, rg, md, PyVal.str (pyJsonDumps pa1), pid1, PyVal.int s1, nr1, lp1, pf1⟩ t))
      p
      (upsertRow
        ⟨rt2, dr, rg, md, PyVal.str (pyJsonDumps pa2), pid2, PyVal.int s2, nr2, lp2, pf2⟩
        (upsertRow
          ⟨rt1, dr, rg, md, PyVal.str (pyJsonDumps pa1), pid1, PyVal.int s1, nr1, lp1, pf1⟩
          t)),
    ?_, ?_, ?_, ?_, ?_⟩
  · have hbind1 : bindRow ⟨rt1, dr, rg, md, PyVal.str (pyJsonDumps pa1), pid1,
        PyVal.int s1, nr1, lp1, pf1⟩ =
        some ⟨rt1, dr, rg, md, PyVal.str (pyJsonDumps pa1), pid1,
          PyVal.int s1, nr1, lp1, pf1⟩ := by
      simp [bindRow, hrt1, hdr, hrg, hmd, hpid1, hnr1, hlp1, hpf1,
        bindPyVal_str, bindPyVal_int]
    simp [log_run, hsu1, hp, hbind1]
  · have hbind2 : bindRow ⟨rt2, dr, rg, md, PyVal.str (pyJsonDumps pa2), pid2,
        PyVal.int s2, nr2, lp2, pf2⟩ =
        some ⟨rt2, dr, rg, md, PyVal.str (pyJsonDumps pa2), pid2,
          PyVal.int s2, nr2, lp2, pf2⟩ := by
      simp [bindRow, hrt2, hdr, hrg, hmd, hpid2, hnr2, hlp2, hpf2,
        bindPyVal_str, bindPyVal_int]
    simp [log_run, hsu2, storeUpdate, hbind2]
  · refine ⟨upsertRow
      ⟨rt2, dr, rg, md, PyVal.str (pyJsonDumps pa2), pid2, PyVal.int s2, nr2, lp2, pf2⟩
      (upsertRow
        ⟨rt1, dr, rg, md, PyVal.str (pyJsonDumps pa1), pid1, PyVal.int s1, nr1, lp1, pf1⟩
        t), ?_, ?_⟩
    · simp [storeUpdate]
    · have h1 : filterKey (upsertRow
          ⟨rt1, dr, rg, md, PyVal.str (pyJsonDumps pa1), pid1, PyVal.int s1, nr1, lp1, pf1⟩
          t) (dr, rg, md) =
          [⟨rt1, dr, rg, md, PyVal.str (pyJsonDumps pa1), pid1, PyVal.int s1, nr1, lp1, pf1⟩] :=
        filterKey_upsertRow_self _ t hrefl hcount
      have hcount1 : countKey (upsertRow
          ⟨rt1, dr, rg, md, PyVal.str (pyJsonDumps pa1), pid1, PyVal.int s1, nr1, lp1, pf1⟩
          t) (dr, rg, md) ≤ 1 := by
        simp [countKey, h1]
      exact filterKey_upsertRow_self _ _ hrefl hcount1
  · intro s q
    funext r
    by_cases hr : r = q <;> simp [init_db, hr]
  · funext q
    by_cases hq : q = p
    · subst hq
      simp [init_db, hp]
    · simp [init_db, hq]

/-- Witness for C6: a fresh default-path store, a (date, range, mode)
key, and two upserts with different payloads, instantiating the
last-write-wins theorem. -/
theorem c6_ledger_upsert_last_write_wins_witness :
    ∃ store1 store2 : Store,
      log_run (PyVal.str "t1") (PyVal.str "05-29-2025") (PyVal.str "1")
        (PyVal.str "daily") (PyVal.dict [(PyVal.str "a", PyVal.int 1)])
        (PyVal.int 111) (PyVal.bool true) (PyVal.int 5) PyVal.none PyVal.none
        (PyVal.str defaultDbPath) (init_db defaultDbPath (fun _ => Option.none)) =
        Except.ok store1 ∧
      log_run (PyVal.str "t2") (PyVal.str "05-29-2025") (PyVal.str "1")
        (PyVal.str "daily") (PyVal.dict []) (PyVal.int 222) (PyVal.bool false)
        (PyVal.int 7) (PyVal.str "log2") (PyVal.str "pts2")
        (PyVal.str defaultDbPath) store1 = Except.ok store2 ∧
      (∃ t2 : Table, store2 defaultDbPath = some t2 ∧
        filterKey t2 (PyVal.str "05-29-2025", PyVal.str "1", PyVal.str "daily") =
          [⟨PyVal.str "t2", PyVal.str "05-29-2025", PyVal.str "1", PyVal.str "daily",
            PyVal.str (pyJsonDumps (PyVal.dict [])), PyVal.int 222, PyVal.int 0,
            PyVal.int 7, PyVal.str "log2", PyVal.str "pts2"⟩]) ∧
      (∀ (s : Store) (q : String), init_db q (init_db q s) = init_db q s) ∧
      init_db defaultDbPath (init_db defaultDbPath (fun _ => Option.none)) =
        init_db defaultDbPath (fun _ => Option.none) :=
  c6_ledger_upsert_last_write_wins
    (init_db defaultDbPath (fun _ => Option.none)) defaultDbPath []
    (PyVal.str "05-29-2025") (PyVal.str "1") (PyVal.str "daily")
    (PyVal.str "t1") (PyVal.dict [(PyVal.str "a", PyVal.int 1)]) (PyVal.int 111)
    (PyVal.bool true) (PyVal.int 5) PyVal.none PyVal.none
    (PyVal.str "t2") (PyVal.dict []) (PyVal.int 222) (PyVal.bool false)
    (PyVal.int 7) (PyVal.str "log2") (PyVal.str "pts2") 1 0
    (by rfl) (by rfl) (by rfl) (by rfl) (by rfl) (by rfl) (by rfl) (by rfl)
    (by rfl) (by rfl) (by rfl) (by rfl) (by rfl) (by rfl) (by rfl) (by rfl)
    (by simp [countKey, filterKey])

/-! ## Orchestrator (src/pipeline/api_client.py process_datewise, src/main.py)

`process_datewise` runs fetch → clean → process_and_write for one
(date, range) unit inside nested try/except blocks: any exception from
the three stages is caught and leaves `success = False`,
`num_records = 0`, `points_file_path = None`; afterwards, when
`log_run_to_localdb` is set, the outcome is upserted into the default
ledger (this final write is outside the try blocks).  The external
collaborators (HTTP fetch, decode, write) are carried per unit as
`Except`-valued data so that a raising stage is representable. -/

/-- One (date, range) unit of a daily/range run: the formatted date, the
range parameter, the ledger timestamp, the flag and log path main()
passes down, and the three stage collaborators. -/
structure UnitSpec where
  dt_str : String
  range_param : Int
  run_time : PyVal
  log_flag : Bool
  log_path : PyVal
  fetchRes : Except PyErr String
  cleanF : String → Except PyErr PyVal
  pawF : PyVal → Except PyErr (Int × PyVal)

/-- Model of `process_datewise` for one unit: the stage pipeline inside
try/except determines (num_records, success, points_file_path), then the
optional `log_run` call (with the default db path) records it. -/
def process_datewise (u : UnitSpec) (mode paramsDict : PyVal) (pid : Int)
    (store : Store) : Except PyErr Store :=
  let outcome : Int × Bool × PyVal :=
    match u.fetchRes with
    | Except.error _ => (0, false, PyVal.none)
    | Except.ok raw =>
      match u.cleanF raw with
      | Except.error _ => (0, false, PyVal.none)
      | Except.ok cleaned =>
        match u.pawF cleaned with
        | Except.error _ => (0, false, PyVal.none)
        | Except.ok np => (np.1, true, np.2)
  if u.log_flag then
    log_run u.run_time (PyVal.str u.dt_str) (PyVal.str (toString u.range_param))
      mode paramsDict (PyVal.int pid) (PyVal.bool outcome.2.1)
      (PyVal.int outcome.1) u.log_path outcome.2.2 (PyVal.str defaultDbPath) store
  else Except.ok store

/-- Sequential processing of the units of a batch run, as the range/daily
loops of main() do; an uncaught exception from one call would abort the
remainder (process_datewise itself catches its stages' exceptions). -/
def runUnits (mode paramsDict : PyVal) (pid : Int) :
    List UnitSpec → Store → Except PyErr Store
  | [], store => Except.ok store
  | u :: rest, store =>
    match process_datewise u mode paramsDict pid store with
    | Except.error e => Except.error e
    | Except.ok s2 => runUnits mode paramsDict pid rest s2

/-- Flag wiring of the range branch of main() (src/main.py): for every
date — the current UTC date included — both intra-day units receive
`log_run_to_localdb = args.log_run`.  The `if dt == today` test in the
source only emits a log message ("Skip logging the run details ...");
both branches pass the same flag, which the identical arms mirror. -/
def mainRangeBranchFlags (dates : List String) (today : String)
    (args_log_run : Bool) : List (String × Int × Bool) :=
  dates.flatMap (fun dt =>
    if dt = today then
      [(dt, 1, args_log_run), (dt, 2, args_log_run)]
    else
      [(dt, 1, args_log_run), (dt, 2, args_log_run)])

/-- Flag wiring of the daily branch of main(): `log_run_to_localdb` is
cleared when the processed date is the current UTC date. -/
def mainDailyBranchFlags (date today : String) (args_log_run : Bool) :
    List (String × Int × Bool) :=
  let log_run_to_localdb := if date = today then false else args_log_run
  [(date, 1, log_run_to_localdb), (date, 2, log_run_to_localdb)]

/-- Stored scalar equality on two strings is string equality. -/
theorem pyScalarEq_str (a b : String) :
    pyScalarEq (PyVal.str a) (PyVal.str b) = decide (a = b) := rfl

/-- Stored scalar equality is symmetric. -/
theorem pyScalarEq_comm (a b : PyVal) : pyScalarEq a b = pyScalarEq b a := by
  cases a <;> cases b <;> simp [pyScalarEq] <;> exact eq_comm

/-- Natural-key equality is symmetric. -/
theorem keyEq_comm (K1 K2 : PyVal × PyVal × PyVal) : keyEq K1 K2 = keyEq K2 K1 := by
  obtain ⟨a1, b1, c1⟩ := K1
  obtain ⟨a2, b2, c2⟩ := K2
  simp [keyEq, pyScalarEq_comm a1 a2, pyScalarEq_comm b1 b2, pyScalarEq_comm c1 c2]

/-- Upserting a row of another key preserves the count of a key. -/
theorem countKey_upsertRow_other (row : RunRow) (t : Table)
    (K : PyVal × PyVal × PyVal) (hne : keyEq (rowKey row) K = false) :
    countKey (upsertRow row t) K = countKey t K := by
  simp [countKey, filterKey_upsertRow_other row t K hne]

/-- Two consecutive writes to the same store path keep the second. -/
theorem storeUpdate_overwrite (s : Store) (p : String) (t1 t2 : Table) :
    storeUpdate (storeUpdate s p t1) p t2 = storeUpdate s p t2 := by
  funext q
  by_cases hq : q = p <;> simp [storeUpdate, hq]

/-- Reading a store at the path just written yields the written table. -/
theorem storeUpdate_read (s : Store) (p : String) (t : Table) :
    storeUpdate s p t p = some t := by
  simp [storeUpdate]

/-- The ledger row `process_datewise` writes for a unit with the given
success flag (as 0/1), record count and points file path. -/
def ledgerRowOf (u : UnitSpec) (mode paramsDict : PyVal) (pid sflag nrec : Int)
    (pfp : PyVal) : RunRow :=
  ⟨u.run_time, PyVal.str u.dt_str, PyVal.str (toString u.range_param), mode,
   PyVal.str (pyJsonDumps paramsDict), PyVal.int pid, PyVal.int sflag,
   PyVal.int nrec, u.log_path, pfp⟩

/-! ## Claim C7: per-unit failure isolation in daily/range mode -/

/-- C7: with three units whose middle fetch raises while the first and
third succeed end to end, the sequential run completes (no exception
escapes a unit's stage pipeline), the first and third units' ledger rows
record success with their record counts, and the middle unit's row
records failure with zero records.  Hypotheses: the default-path ledger
table exists with at most one row per unit key, the three unit keys are
pairwise distinct, and the per-unit ledger values are bindable
scalars. -/
theorem c7_unit_isolation
    (u1 u2 u3 : UnitSpec) (mode paramsDict : PyVal) (pid : Int)
    (store : Store) (t : Table)
    (raw1 raw3 : String) (cl1 cl3 : PyVal) (n1 n3 : Int) (pf1 pf3 : PyVal)
    (e2 : PyErr)
    (h1f : u1.fetchRes = Except.ok raw1) (h1c : u1.cleanF raw1 = Except.ok cl1)
    (h1p : u1.pawF cl1 = Except.ok (n1, pf1))
    (h2f : u2.fetchRes = Except.error e2)
    (h3f : u3.fetchRes = Except.ok raw3) (h3c : u3.cleanF raw3 = Except.ok cl3)
    (h3p : u3.pawF cl3 = Except.ok (n3, pf3))
    (hfl1 : u1.log_flag = true) (hfl2 : u2.log_flag = true)
    (hfl3 : u3.log_flag = true)
    (hp : store defaultDbPath = some t)
    (hbmode : bindPyVal mode = some mode)
    (hbrt1 : bindPyVal u1.run_time = some u1.run_time)
    (hblp1 : bindPyVal u1.log_path = some u1.log_path)
    (hbpf1 : bindPyVal pf1 = some pf1)
    (hbrt2 : bindPyVal u2.run_time = some u2.run_time)
    (hblp2 : bindPyVal u2.log_path = some u2.log_path)
    (hbrt3 : bindPyVal u3.run_time = some u3.run_time)
    (hblp3 : bindPyVal u3.log_path = some u3.log_path)
    (hbpf3 : bindPyVal pf3 = some pf3)
    (hc1 : countKey t (PyVal.str u1.dt_str, PyVal.str (toString u1.range_param), mode) ≤ 1)
    (hc2 : countKey t (PyVal.str u2.dt_str, PyVal.str (toString u2.range_param), mode) ≤ 1)
    (hc3 : countKey t (PyVal.str u3.dt_str, PyVal.str (toString u3.range_param), mode) ≤ 1)
    (hne21 : keyEq (PyVal.str u2.dt_str, PyVal.str (toString u2.range_param), mode)
      (PyVal.str u1.dt_str, PyVal.str (toString u1.range_param), mode) = false)
    (hne31 : keyEq (PyVal.str u3.dt_str, PyVal.str (toString u3.range_param), mode)
      (PyVal.str u1.dt_str, PyVal.str (toString u1.range_param), mode) = false)
    (hne32 : keyEq (PyVal.str u3.dt_str, PyVal.str (toString u3.range_param), mode)
      (PyVal.str u2.dt_str, PyVal.str (toString u2.range_param), mode) = false) :
    ∃ stf : Store,
      runUnits mode paramsDict pid [u1, u2, u3] store = Except.ok stf ∧
      ∃ tf : Table, stf defaultDbPath = some tf ∧
        filterKey tf (PyVal.str u1.dt_str, PyVal.str (toString u1.range_param), mode) =
          [ledgerRowOf u1 mode paramsDict pid 1 n1 pf1] ∧
        filterKey tf (PyVal.str u2.dt_str, PyVal.str (toString u2.range_param), mode) =
          [ledgerRowOf u2 mode paramsDict pid 0 0 PyVal.none] ∧
        filterKey tf (PyVal.str u3.dt_str, PyVal.str (toString u3.range_param), mode) =
          [ledgerRowOf u3 mode paramsDict pid 1 n3 pf3] := by
  have hm : pyScalarEq mode mode = true := pyScalarEq_self_of_bind hbmode
  have hbind1 : bindRow ⟨u1.run_time, PyVal.str u1.dt_str,
      PyVal.str (toString u1.range_param), mode, PyVal.str (pyJsonDumps paramsDict),
      PyVal.int pid, PyVal.int 1, PyVal.int n1, u1.log_path, pf1⟩ =
      some ⟨u1.run_time, PyVal.str u1.dt_str, PyVal.str (toString u1.range_param),
        mode, PyVal.str (pyJsonDumps paramsDict), PyVal.int pid, PyVal.int 1,
        PyVal.int n1, u1.log_path, pf1⟩ := by
    simp [bindRow, hbrt1, hbmode, hblp1, hbpf1, bindPyVal_str, bindPyVal_int]
  have hbind2 : bindRow ⟨u2.run_time, PyVal.str u2.dt_str,
      PyVal.str (toString u2.range_param), mode, PyVal.str (pyJsonDumps paramsDict),
      PyVal.int pid, PyVal.int 0, PyVal.int 0, u2.log_path, PyVal.none⟩ =
      some ⟨u2.run_time, PyVal.str u2.dt_str, PyVal.str (toString u2.range_param),
        mode, PyVal.str (pyJsonDumps paramsDict), PyVal.int pid, PyVal.int 0,
        PyVal.int 0, u2.log_path, PyVal.none⟩ := by
    simp [bindRow, hbrt2, hbmode, hblp2, bindPyVal_str, bindPyVal_int, bindPyVal_none]
  have hbind3 : bindRow ⟨u3.run_time, PyVal.str u3.dt_str,
      PyVal.str (toString u3.range_param), mode, PyVal.str (pyJsonDumps paramsDict),
      PyVal.int pid, PyVal.int 1, PyVal.int n3, u3.log_path, pf3⟩ =
      some ⟨u3.run_time, PyVal.str u3.dt_str, PyVal.str (toString u3.range_param),
        mode, PyVal.str (pyJsonDumps paramsDict), PyVal.int pid, PyVal.int 1,
        PyVal.int n3, u3.log_path, pf3⟩ := by
    simp [bindRow, hbrt3, hbmode, hblp3, hbpf3, bindPyVal_str, bindPyVal_int]
  have hstep1 : process_datewise u1 mode paramsDict pid store =
      Except.ok (storeUpdate store defaultDbPath
        (upsertRow (ledgerRowOf u1 mode paramsDict pid 1 n1 pf1) t)) := by
    simp [process_datewise, h1f, h1c, h1p, hfl1, log_run, pyInt, hp, hbind1, ledgerRowOf]
  have hstep2 : process_datewise u2 mode paramsDict pid
      (storeUpdate store defaultDbPath
        (upsertRow (ledgerRowOf u1 mode paramsDict pid 1 n1 pf1) t)) =
      Except.ok (storeUpdate store defaultDbPath
        (upsertRow (ledgerRowOf u2 mode paramsDict pid 0 0 PyVal.none)
          (upsertRow (ledgerRowOf u1 mode paramsDict pid 1 n1 pf1) t))) := by
    simp [process_datewise, h2f, hfl2, log_run, pyInt, hbind2, ledgerRowOf,
      storeUpdate_read, storeUpdate_overwrite]
  have hstep3 : process_datewise u3 mode paramsDict pid
      (storeUpdate store defaultDbPath
        (upsertRow (ledgerRowOf u2 mode paramsDict pid 0 0 PyVal.none)
          (upsertRow (ledgerRowOf u1 mode paramsDict pid 1 n1 pf1) t))) =
      Except.ok (storeUpdate store defaultDbPath
        (upsertRow (ledgerRowOf u3 mode paramsDict pid 1 n3 pf3)
          (upsertRow (ledgerRowOf u2 mode paramsDict pid 0 0 PyVal.none)
            (upsertRow (ledgerRowOf u1 mode paramsDict pid 1 n1 pf1) t)))) := by
    simp [process_datewise, h3f, h3c, h3p, hfl3, log_run, pyInt, hbind3, ledgerRowOf,
      storeUpdate_read, storeUpdate_overwrite]
  have hself1 : keyEq
      (PyVal.str u1.dt_str, PyVal.str (toString u1.range_param), mode)
      (PyVal.str u1.dt_str, PyVal.str (toString u1.range_param), mode) = true := by
    simp [keyEq, pyScalarEq_str, hm]
  have hself2 : keyEq
      (PyVal.str u2.dt_str, PyVal.str (toString u2.range_param), mode)
      (PyVal.str u2.dt_str, PyVal.str (toString u2.range_param), mode) = true := by
    simp [keyEq, pyScalarEq_str, hm]
  have hself3 : keyEq
      (PyVal.str u3.dt_str, PyVal.str (toString u3.range_param), mode)
      (PyVal.str u3.dt_str, PyVal.str (toString u3.range_param), mode) = true := by
    simp [keyEq, pyScalarEq_str, hm]
  have hne12 : keyEq (PyVal.str u1.dt_str, PyVal.str (toString u1.range_param), mode)
      (PyVal.str u2.dt_str, PyVal.str (toString u2.range_param), mode) = false := by
    rw [keyEq_comm]; exact hne21
  have hne13 : keyEq (PyVal.str u1.dt_str, PyVal.str (toString u1.range_param), mode)
      (PyVal.str u3.dt_str, PyVal.str (toString u3.range_param), mode) = false := by
    rw [keyEq_comm]; exact hne31
  have hne23 : keyEq (PyVal.str u2.dt_str, PyVal.str (toString u2.range_param), mode)
      (PyVal.str u3.dt_str, PyVal.str (toString u3.range_param), mode) = false := by
    rw [keyEq_comm]; exact hne32
  have hfil1 : filterKey
      (upsertRow (ledgerRowOf u3 mode paramsDict pid 1 n3 pf3)
        (upsertRow (ledgerRowOf u2 mode paramsDict pid 0 0 PyVal.none)
          (upsertRow (ledgerRowOf u1 mode paramsDict pid 1 n1 pf1) t)))
      (PyVal.str u1.dt_str, PyVal.str (toString u1.range_param), mode) =
      [ledgerRowOf u1 mode paramsDict pid 1 n1 pf1] := by
    rw [filterKey_upsertRow_other (ledgerRowOf u3 mode paramsDict pid 1 n3 pf3) _ _ hne31,
      filterKey_upsertRow_other (ledgerRowOf u2 mode paramsDict pid 0 0 PyVal.none) _ _ hne21]
    exact filterKey_upsertRow_self (ledgerRowOf u1 mode paramsDict pid 1 n1 pf1) t hself1 hc1
  have hfil2 : filterKey
      (upsertRow (ledgerRowOf u3 mode paramsDict pid 1 n3 pf3)
        (upsertRow (ledgerRowOf u2 mode paramsDict pid 0 0 PyVal.none)
          (upsertRow (ledgerRowOf u1 mode paramsDict pid 1 n1 pf1) t)))
      (PyVal.str u2.dt_str, PyVal.str (toString u2.range_param), mode) =
      [ledgerRowOf u2 mode paramsDict pid 0 0 PyVal.none] := by
    rw [filterKey_upsertRow_other (ledgerRowOf u3 mode paramsDict pid 1 n3 pf3) _ _ hne32]
    have hcc : countKey (upsertRow (ledgerRowOf u1 mode paramsDict pid 1 n1 pf1) t)
        (PyVal.str u2.dt_str, PyVal.str (toString u2.range_param), mode) ≤ 1 := by
      rw [countKey_upsertRow_other (ledgerRowOf u1 mode paramsDict pid 1 n1 pf1) _ _ hne12]
      exact hc2
    exact filterKey_upsertRow_self (ledgerRowOf u2 mode paramsDict pid 0 0 PyVal.none) _
      hself2 hcc
  have hfil3 : filterKey
      (upsertRow (ledgerRowOf u3 mode paramsDict pid 1 n3 pf3)
        (upsertRow (ledgerRowOf u2 mode paramsDict pid 0 0 PyVal.none)
          (upsertRow (ledgerRowOf u1 mode paramsDict pid 1 n1 pf1) t)))
      (PyVal.str u3.dt_str, PyVal.str (toString u3.range_param), mode) =
      [ledgerRowOf u3 mode paramsDict pid 1 n3 pf3] := by
    have hcc : countKey
        (upsertRow (ledgerRowOf u2 mode paramsDict pid 0 0 PyVal.none)
          (upsertRow (ledgerRowOf u1 mode paramsDict pid 1 n1 pf1) t))
        (PyVal.str u3.dt_str, PyVal.str (toString u3.range_param), mode) ≤ 1 := by
      rw [countKey_upsertRow_other (ledgerRowOf u2 mode paramsDict pid 0 0 PyVal.none) _ _ hne23,
        countKey_upsertRow_other (ledgerRowOf u1 mode paramsDict pid 1 n1 pf1) _ _ hne13]
      exact hc3
    exact filterKey_upsertRow_self (ledgerRowOf u3 mode paramsDict pid 1 n3 pf3) _ hself3 hcc
  refine ⟨storeUpdate store defaultDbPath
      (upsertRow (ledgerRowOf u3 mode paramsDict pid 1 n3 pf3)
        (upsertRow (ledgerRowOf u2 mode paramsDict pid 0 0 PyVal.none)
          (upsertRow (ledgerRowOf u1 mode paramsDict pid 1 n1 pf1) t))), ?_,
    upsertRow (ledgerRowOf u3 mode paramsDict pid 1 n3 pf3)
      (upsertRow (ledgerRowOf u2 mode paramsDict pid 0 0 PyVal.none)
        (upsertRow (ledgerRowOf u1 mode paramsDict pid 1 n1 pf1) t)),
    storeUpdate_read _ _ _, hfil1, hfil2, hfil3⟩
  simp [runUnits, hstep1, hstep2, hstep3]

/-- C7 witness unit 1: fetch, decode and write all succeed with five
records. -/
def c7u1 : UnitSpec :=
  ⟨"05-01-2025", 1, PyVal.str "rt1", true, PyVal.none, Except.ok "raw1",
    fun _ => Except.ok (PyVal.list []), fun _ => Except.ok (5, PyVal.none)⟩

/-- C7 witness unit 2: the fetch raises. -/
def c7u2 : UnitSpec :=
  ⟨"05-02-2025", 1, PyVal.str "rt2", true, PyVal.none, Except.error PyErr.exception,
    fun _ => Except.ok (PyVal.list []), fun _ => Except.ok (0, PyVal.none)⟩

/-- C7 witness unit 3: all stages succeed with seven records. -/
def c7u3 : UnitSpec :=
  ⟨"05-03-2025", 1, PyVal.str "rt3", true, PyVal.none, Except.ok "raw3",
    fun _ => Except.ok (PyVal.list []), fun _ => Except.ok (7, PyVal.none)⟩

/-- Witness for C7: three concrete date units over a fresh ledger, the
middle fetch raising; the isolation theorem yields success rows for the
first and third units and a failure row for the middle one. -/
theorem c7_unit_isolation_witness :
    ∃ stf : Store,
      runUnits (PyVal.str "range") (PyVal.dict []) 99 [c7u1, c7u2, c7u3]
        (init_db defaultDbPath (fun _ => Option.none)) = Except.ok stf ∧
      ∃ tf : Table, stf defaultDbPath = some tf ∧
        filterKey tf (PyVal.str c7u1.dt_str, PyVal.str (toString c7u1.range_param),
            PyVal.str "range") =
          [ledgerRowOf c7u1 (PyVal.str "range") (PyVal.dict []) 99 1 5 PyVal.none] ∧
        filterKey tf (PyVal.str c7u2.dt_str, PyVal.str (toString c7u2.range_param),
            PyVal.str "range") =
          [ledgerRowOf c7u2 (PyVal.str "range") (PyVal.dict []) 99 0 0 PyVal.none] ∧
        filterKey tf (PyVal.str c7u3.dt_str, PyVal.str (toString c7u3.range_param),
            PyVal.str "range") =
          [ledgerRowOf c7u3 (PyVal.str "range") (PyVal.dict []) 99 1 7 PyVal.none] :=
  c7_unit_isolation c7u1 c7u2 c7u3 (PyVal.str "range") (PyVal.dict []) 99
    (init_db defaultDbPath (fun _ => Option.none)) []
    "raw1" "raw3" (PyVal.list []) (PyVal.list []) 5 7 PyVal.none PyVal.none
    PyErr.exception
    (by rfl) (by rfl) (by rfl) (by rfl) (by rfl) (by rfl) (by rfl)
    (by rfl) (by rfl) (by rfl)
    (by rfl)
    (by rfl)
    (by rfl) (by rfl) (by rfl)
    (by rfl) (by rfl)
    (by rfl) (by rfl) (by rfl)
    (by simp [countKey, filterKey]) (by simp [countKey, filterKey])
    (by simp [countKey, filterKey])
    (by rfl) (by rfl) (by rfl)

/-! ## Claim C8: "today" and the run ledger in range vs daily mode -/

/-- The concrete unit list the C8 evaluation runs: the range branch over
the two dates 10-11-2025 and 10-12-2025 with 10-12-2025 as the current
UTC date and `--log-run` enabled; every stage succeeds with two
records. -/
def c8Units : List UnitSpec :=
  (mainRangeBranchFlags ["10-11-2025", "10-12-2025"] "10-12-2025" true).map
    (fun x =>
      ⟨x.1, x.2.1, PyVal.str "rt", x.2.2, PyVal.none, Except.ok "raw",
        fun _ => Except.ok (PyVal.list []), fun _ => Except.ok (2, PyVal.none)⟩)

/-- The store after the C8 range-branch run, starting from a fresh
default-path ledger. -/
def c8FinalStore : Store :=
  match runUnits (PyVal.str "range") (PyVal.dict []) 99 c8Units
      (init_db defaultDbPath (fun _ => Option.none)) with
  | Except.ok s => s
  | Except.error _ => fun _ => Option.none

/-- C8: claimed — in daily/range mode no RunRecord is written for a date
equal to the current UTC date.  Actual — the range branch passes
`args.log_run` unchanged for today's units (the skip exists only as a log
message), so both of today's units land in the ledger; the daily branch
does clear the flag.  The run itself completes for all units (fetch,
decode and write still occur). -/
theorem c8_range_branch_still_logs_today :
    exceptIsOk (runUnits (PyVal.str "range") (PyVal.dict []) 99 c8Units
      (init_db defaultDbPath (fun _ => Option.none))) = true ∧
    countKey ((c8FinalStore defaultDbPath).getD [])
      (PyVal.str "10-12-2025", PyVal.str "1", PyVal.str "range") = 1 ∧
    countKey ((c8FinalStore defaultDbPath).getD [])
      (PyVal.str "10-12-2025", PyVal.str "2", PyVal.str "range") = 1 ∧
    (mainDailyBranchFlags "10-12-2025" "10-12-2025" true).all
      (fun x => x.2.2 = false) = true := by
  exact ⟨rfl, rfl, rfl, rfl⟩

/-! ## Claim C9: the live-mode ledger update in main()

The live branch of main() calls `log_run` with eleven positional
arguments against the parameter list (run_time, date_run, range_param,
mode, parameters, process_id, success, num_records, log_path,
points_file_path, db_path): every argument from the third on lands one
slot off — range_param gets the time string, mode gets the range string,
parameters gets args.mode, process_id gets vars(args), success gets the
pid, num_records gets the literal True, log_path gets the record count,
points_file_path gets the log path, and db_path gets points_file_path. -/

/-- The live-mode `log_run` call of main(), argument for argument (the
eighth argument is the literal `True`). -/
def main_live_log_run (run_time date_str_file time_str_file range_str mode_val
    args_vars pid num_records log_path points_file_path : PyVal)
    (store : Store) : Except PyErr Store :=
  log_run run_time date_str_file time_str_file range_str mode_val args_vars
    pid (PyVal.bool true) num_records log_path points_file_path store

/-- C9: claimed — every ledger update, live mode included, writes one row
at the default db path with the mode string in the mode column, a 0/1
flag in success, the pid in process_id and the record count in
num_records.  Actual — the shifted live-mode call never writes a row: it
raises TypeError when points_file_path is None (db path not a string),
OperationalError when it is a file path with no runs table, and
InterfaceError even with a table there because the process_id column
receives the vars(args) dict. -/
theorem c9_live_mode_ledger_call_shifted :
    main_live_log_run (PyVal.str "2025-10-12T10:00:00+00:00")
      (PyVal.str "12_10_2025") (PyVal.str "10_00_00") (PyVal.str "1")
      (PyVal.str "live") (PyVal.dict [(PyVal.str "mode", PyVal.str "live")])
      (PyVal.int 1234) (PyVal.int 500) PyVal.none PyVal.none
      (init_db defaultDbPath (fun _ => Option.none)) =
      Except.error PyErr.typeError ∧
    main_live_log_run (PyVal.str "2025-10-12T10:00:00+00:00")
      (PyVal.str "12_10_2025") (PyVal.str "10_00_00") (PyVal.str "1")
      (PyVal.str "live") (PyVal.dict [(PyVal.str "mode", PyVal.str "live")])
      (PyVal.int 1234) (PyVal.int 500) PyVal.none
      (PyVal.str "output/live_12_10_2025_10_00_00.txt.gz")
      (init_db defaultDbPath (fun _ => Option.none)) =
      Except.error PyErr.operationalError ∧
    main_live_log_run (PyVal.str "2025-10-12T10:00:00+00:00")
      (PyVal.str "12_10_2025") (PyVal.str "10_00_00") (PyVal.str "1")
      (PyVal.str "live") (PyVal.dict [(PyVal.str "mode", PyVal.str "live")])
      (PyVal.int 1234) (PyVal.int 500) PyVal.none
      (PyVal.str "output/live_12_10_2025_10_00_00.txt.gz")
      (init_db "output/live_12_10_2025_10_00_00.txt.gz"
        (init_db defaultDbPath (fun _ => Option.none))) =
      Except.error PyErr.interfaceError := by
  exact ⟨rfl, rfl, rfl⟩

/-! ## process_and_write (src/pipeline/influx_writer.py)

The record loop of `process_and_write` filters each record by the
optional variable allow-list (always keeping "Timelogged"), attempts
`datetime.strptime(record["Timelogged"], ...)` inside try/except, and
then hands `build_points(record, ts)` to `write_points_to_txt`.  With
the checked-in bf2_rename_map, `build_points` returns a list of Point
objects, and `write_points_to_txt` passes it straight to `f.write`,
which accepts only strings — so the first loop iteration raises
TypeError for every non-empty record list, and the epilogue (db write,
rename/gzip, time-string rendering) is reached only when `cleaned_list`
is empty.  In that case no temporary points file was ever created, so
the db-write (db_write and override) and the rename (retain_file) raise
FileNotFoundError when enabled; otherwise in live mode `dt_utc` — still
None after the empty loop — raises AttributeError at
`dt_utc.strftime(...)`.  Timestamp parsing and rendering stay abstract
(`parseTs` / `strftime`): strptime plus the timezone conversion is
configuration-driven collaborator behaviour. -/

/-- Association-dict lookup `record.get(k)`. -/
def recLookup (r : List (String × PyVal)) (k : String) : Option PyVal :=
  (r.find? (fun kv => kv.1 = k)).map Prod.snd

/-- The allow-list filtering of one record: keep allow-listed variables
and always the "Timelogged" key; no list means no filtering. -/
def filterRec (vl : Option (List String)) (r : List (String × PyVal)) :
    List (String × PyVal) :=
  match vl with
  | some l => r.filter (fun kv => kv.1 ∈ l ∨ kv.1 = "Timelogged")
  | Option.none => r

/-- Model of the checked-in `process_and_write` (see the section
comment): a non-empty record list runs the first iteration's Timelogged
parse attempt and then raises TypeError at the per-record file write;
an empty list runs the epilogue with `dt_utc = None` and no temporary
file. -/
def process_and_write {TS : Type} (parseTs : String → Option TS)
    (strftime : TS → String) (cleaned_list : List (List (String × PyVal)))
    (date_str_file : String) (time_str_file : Option String) (range_val : Int)
    (mode : String) (db_write override retain_file : Bool)
    (variables_list : Option (List String)) :
    Except PyErr (Int × Option String × Option String) :=
  let record_count : Int := cleaned_list.length
  match cleaned_list with
  | record :: _ =>
    -- first iteration: the try/except strptime attempt runs on the
    -- filtered record ...
    let _dt1 : Option TS :=
      match recLookup (filterRec variables_list record) "Timelogged" with
      | some (PyVal.str s) => parseTs s
      | _ => Option.none
    -- ... then line_input := build_points(record, ts) is a list of
    -- Points and write_points_to_txt does f.write(line_input), which
    -- raises TypeError for a non-string argument
    Except.error PyErr.typeError
  | [] =>
    let dt_utc : Option TS := Option.none
    if db_write && override then
      -- write_to_influxdb opens the never-created temporary file
      Except.error PyErr.fileNotFoundError
    else if retain_file then
      -- the final name is computed, then os.rename on the never-created
      -- temporary file raises
      let _points_file_final : String :=
        (if mode = "daily" then
            "output/date_" ++ date_str_file ++ "_Range" ++ toString range_val ++ ".txt"
          else
            "output/live_" ++ date_str_file ++ "_" ++
              (match time_str_file with
               | some s => s
               | Option.none => "None") ++ ".txt")
      Except.error PyErr.fileNotFoundError
    else if mode = "live" then
      match dt_utc with
      | Option.none => Except.error PyErr.attributeError
      | some t => Except.ok (record_count, Option.none, some (strftime t))
    else Except.ok (record_count, Option.none, Option.none)

/-! ## Claim C10: live mode and the Timelogged timestamp -/

/-- Counterexample to C10 as stated: one record whose Timelogged value
parses in no format, live mode, default flags — the call raises
TypeError inside the record loop (`f.write` rejecting the list the
checked-in `build_points` returns), not the `dt_utc.strftime`
AttributeError the claim names; that epilogue is never reached for a
non-empty record list. -/
theorem c10_nonempty_record_list_raises_in_loop :
    process_and_write (fun _ : String => (Option.none : Option Int)) toString
      [[("Timelogged", PyVal.str "29/05/2025 na")]] "29_05_2025"
      (some "12_00_00") 1 "live" false false false Option.none =
      Except.error PyErr.typeError ∧
    (Except.error PyErr.typeError :
        Except PyErr (Int × Option String × Option String)) ≠
      Except.error PyErr.attributeError := by
  exact ⟨rfl, by simp⟩

/-- C10 as amended: on the checked-in code, live-mode `process_and_write`
never returns its (count, path, time) tuple — a non-empty record list
raises TypeError in the first loop iteration (in every mode, whatever
the flags and however Timelogged parses), and only the empty record list
reaches the epilogue, where with db-write and retain-file off `dt_utc`,
still None, raises AttributeError at `dt_utc.strftime(...)`. -/
theorem c10_live_mode_never_returns {TS : Type} (parseTs : String → Option TS)
    (strftime : TS → String) (cleaned_list : List (List (String × PyVal)))
    (date_str_file : String) (time_str_file : Option String) (range_val : Int)
    (mode : String) (db_write override retain_file : Bool)
    (variables_list : Option (List String)) :
    (∀ record rest, cleaned_list = record :: rest →
      process_and_write parseTs strftime cleaned_list date_str_file
        time_str_file range_val mode db_write override retain_file
        variables_list = Except.error PyErr.typeError) ∧
    (cleaned_list = [] → db_write = false → retain_file = false →
      process_and_write parseTs strftime cleaned_list date_str_file
        time_str_file range_val "live" db_write override retain_file
        variables_list = Except.error PyErr.attributeError) ∧
    exceptIsOk (process_and_write parseTs strftime cleaned_list date_str_file
      time_str_file range_val "live" db_write override retain_file
      variables_list) = false := by
  refine ⟨?_, ?_, ?_⟩
  · intro record rest h
    subst h
    rfl
  · intro h hdb hrf
    subst h
    subst hdb
    subst hrf
    rfl
  · cases cleaned_list with
    | nil => cases db_write <;> cases override <;> cases retain_file <;> rfl
    | cons record rest => rfl

/-- Witness for the amended C10: a one-record list raises TypeError in
the loop; the empty list with default flags raises AttributeError at the
strftime epilogue; and even with every flag on, the empty-list live call
returns no tuple. -/
theorem c10_live_mode_never_returns_witness :
    process_and_write (fun _ : String => (Option.none : Option Int)) toString
      [[("Timelogged", PyVal.str "29/05/2025 na")]] "29_05_2025"
      (some "12_00_00") 1 "live" false false false Option.none =
      Except.error PyErr.typeError ∧
    process_and_write (fun _ : String => (Option.none : Option Int)) toString
      ([] : List (List (String × PyVal))) "29_05_2025" (some "12_00_00") 1
      "live" false false false Option.none =
      Except.error PyErr.attributeError ∧
    exceptIsOk (process_and_write (fun _ : String => (Option.none : Option Int))
      toString ([] : List (List (String × PyVal))) "29_05_2025"
      (some "12_00_00") 1 "live" true true true Option.none) = false :=
  ⟨(c10_live_mode_never_returns (fun _ : String => (Option.none : Option Int))
      toString [[("Timelogged", PyVal.str "29/05/2025 na")]] "29_05_2025"
      (some "12_00_00") 1 "live" false false false Option.none).1
      [("Timelogged", PyVal.str "29/05/2025 na")] [] rfl,
   (c10_live_mode_never_returns (fun _ : String => (Option.none : Option Int))
      toString [] "29_05_2025" (some "12_00_00") 1 "live" false false false
      Option.none).2.1 rfl rfl rfl,
   (c10_live_mode_never_returns (fun _ : String => (Option.none : Option Int))
      toString [] "29_05_2025" (some "12_00_00") 1 "live" true true true
      Option.none).2.2⟩

end Evonith
